import Mathlib

/-!
Verification of the waste-classification decision engine
(`backend/app/rules.py` of jiandai/waste-classification-app).

The engine is a set of pure functions over request-scoped value objects:
a confidence bucketer, a profile-based ordered decision table, a legacy
label-based decision table, and a clarification resolver.  We embed the
data model (`backend/app/schemas.py`) and the three rule functions
shallowly: Python strings become `String`, floats become `ℚ` (the code
only compares and copies scores, never does float arithmetic, and all
literals involved are exactly representable order-preserving decimals),
lists become `List`, `Optional` becomes `Option`.
-/

namespace WasteApp

/-- From `schemas.py`: `LabelScore` — one free-text guess with a score. -/
structure LabelScore where
  label : String
  score : ℚ
deriving Repr, DecidableEq

/-- From `schemas.py`: the `type` literal of a `RationaleItem`. -/
inductive RationaleType where
  | DETECTED_ITEM | RULE | USER_INPUT | SAFETY | SYSTEM
deriving Repr, DecidableEq

/-- From `schemas.py`: `RationaleItem` — one audit-trail entry. -/
structure RationaleItem where
  type : RationaleType
  text : String
deriving Repr, DecidableEq

/-- From `schemas.py`: `SpecialHandling`.  The `category` literal values
are the strings `"BATTERY" | "E_WASTE" | "HHW" | "SHARPS" | "UNKNOWN"`. -/
structure SpecialHandling where
  category : String
  instructions : String
  links : List String
deriving Repr, DecidableEq

/-- From `schemas.py`: `Clarification`.  The `options` dicts
`{"value": b, "label": s}` are embedded as pairs. -/
structure Clarification where
  question_id : String
  question_text : String
  answer_type : String
  options : List (Bool × String)
deriving Repr, DecidableEq

/-- From `schemas.py`: `Result`.  `bin` holds one of the `BinType`
literal strings `"BLUE" | "GREEN" | "GRAY" | "SPECIAL" | "UNKNOWN"`;
`confidence` one of `"HIGH" | "MEDIUM" | "LOW"`. -/
structure Result where
  bin : String
  bin_label : String
  confidence : String
  confidence_score : ℚ
  rationale : List RationaleItem
  top_labels : List LabelScore
deriving Repr, DecidableEq

/-- Modelled from the spec: `ItemProfile`, the structured inference
result consumed by the profile decision engine.  The class is imported
by `rules.py` from `schemas.py` but its definition is missing from the
sources; the spec gives its fields: `material`, `form_factor`,
`contamination_risk`, `special_handling` (enumerated string codes),
`confidence` in `[0,1]`, and `raw_labels`, a best-first list of
`LabelScore`.  The rule engine treats the four code fields as plain
strings, so they are embedded as `String`. -/
structure ItemProfile where
  material : String
  form_factor : String
  contamination_risk : String
  special_handling : String
  confidence : ℚ
  raw_labels : List LabelScore
deriving Repr, DecidableEq

/-- From `rules.py` (`_confidence_bucket`): maps a raw score to a
qualitative confidence level. -/
def confidence_bucket (score : ℚ) : String :=
  if score ≥ 0.85 then "HIGH"
  else if score ≥ 0.65 then "MEDIUM"
  else "LOW"

/-- Python `dict.get(key, default)` over an association list. -/
def dictGet (m : List (String × String)) (key dflt : String) : String :=
  match m.lookup key with
  | some v => v
  | none => dflt

/-- From `rules.py` line 40: `special_category_map`. -/
def special_category_map : List (String × String) :=
  [("battery", "BATTERY"), ("e_waste", "E_WASTE"),
   ("hhw", "HHW"), ("sharps", "SHARPS")]

/-- From `rules.py` line 48: `instructions_map`. -/
def instructions_map : List (String × String) :=
  [("battery", "Do not place in curbside bins. Take to a household hazardous waste drop-off or a retailer collection point."),
   ("e_waste", "Do not place in curbside bins. Take to an e-waste collection facility or retailer drop-off."),
   ("hhw", "Do not place in curbside bins. Take to a household hazardous waste collection facility."),
   ("sharps", "Do not place in curbside bins. Use a sharps container and take to a designated collection site.")]

/-- Python `str.title()` restricted to its behavior on ASCII text: the
first character of each alphabetic run is uppercased, the rest
lowercased. -/
def pyTitle (s : String) : String :=
  String.mk ((s.data.foldl
    (fun acc c =>
      let c' := if acc.2 then c.toLower else c.toUpper
      (c' :: acc.1, c.isAlpha))
    (([] : List Char), false)).1.reverse)

/-- Python `bool` formatting inside an f-string. -/
def pyBool (b : Bool) : String := if b then "True" else "False"

/-- From `rules.py` line 84: `recyclable_materials`. -/
def recyclable_materials : List String :=
  ["paper_cardboard", "metal", "glass", "rigid_plastic"]

/-- From `rules.py` (`decide_bin_from_profile`): the ordered decision
table over an `ItemProfile`.  Returns, like the Python tuple,
`(result, needs_clarification, clarification, special_handling)`.
The rules are the Python early-return chain, in source order. -/
def decide_bin_from_profile (profile : ItemProfile)
    (jurisdiction_id : String := "CA_DEFAULT") :
    Result × Bool × Option Clarification × Option SpecialHandling :=
  let top_labels := if profile.raw_labels.isEmpty then [] else profile.raw_labels.take 5
  let rationale : List RationaleItem :=
    [⟨RationaleType.DETECTED_ITEM,
      "Material: " ++ profile.material ++ ", Form: " ++ profile.form_factor ++
      ", Contamination: " ++ profile.contamination_risk⟩]
  -- 1. Special handling first
  if profile.special_handling ≠ "none" then
    let category := dictGet special_category_map profile.special_handling "UNKNOWN"
    let instructions := dictGet instructions_map profile.special_handling
      "Requires special disposal. Check local guidelines."
    let special : SpecialHandling := ⟨category, instructions, []⟩
    (⟨"SPECIAL", "Special handling", confidence_bucket profile.confidence,
      profile.confidence,
      rationale ++ [⟨RationaleType.SAFETY,
        pyTitle (profile.special_handling.replace "_" " ") ++ " requires special disposal"⟩],
      top_labels⟩,
     false, none, some special)
  -- 2. Organics
  else if profile.material = "organic" then
    (⟨"GREEN", "Organics", confidence_bucket profile.confidence, profile.confidence,
      rationale ++ [⟨RationaleType.RULE, "Organic materials go in organics"⟩],
      top_labels⟩,
     false, none, none)
  -- 3. Clear recycling: clean rigid containers
  else if profile.material ∈ recyclable_materials ∧ profile.contamination_risk = "low" then
    (⟨"BLUE", "Recycling", confidence_bucket profile.confidence, profile.confidence,
      rationale ++ [⟨RationaleType.RULE, "Clean recyclable materials go in recycling"⟩],
      top_labels⟩,
     false, none, none)
  -- 4. Film plastic → trash
  else if profile.material = "film_plastic" then
    (⟨"GRAY", "Landfill (Trash)", confidence_bucket profile.confidence, profile.confidence,
      rationale ++ [⟨RationaleType.RULE,
        "Plastic film/bags are usually not accepted in curbside recycling"⟩],
      top_labels⟩,
     false, none, none)
  -- 5. Paper/cardboard with unknown contamination → ask clarification
  else if profile.material = "paper_cardboard" ∧ profile.contamination_risk = "unknown" then
    (⟨"UNKNOWN", "Not sure yet", confidence_bucket profile.confidence, profile.confidence,
      rationale ++ [⟨RationaleType.RULE,
        "Paper can be recycling if clean; organics/trash if food-soiled"⟩],
      top_labels⟩,
     true,
     some ⟨"q_food_soiled_01", "Is it food-soiled (grease/food residue)?", "BOOLEAN",
       [(true, "Yes"), (false, "No")]⟩,
     none)
  -- 6. Paper/cardboard with high contamination → organics
  else if profile.material = "paper_cardboard" ∧ profile.contamination_risk = "high" then
    (⟨"GREEN", "Organics", confidence_bucket profile.confidence, profile.confidence,
      rationale ++ [⟨RationaleType.RULE,
        "Food-soiled paper goes in organics (where accepted)"⟩],
      top_labels⟩,
     false, none, none)
  -- 7. Paper/cardboard with medium contamination → organics
  else if profile.material = "paper_cardboard" ∧ profile.contamination_risk = "medium" then
    (⟨"GREEN", "Organics", confidence_bucket profile.confidence, profile.confidence,
      rationale ++ [⟨RationaleType.RULE,
        "Moderately soiled paper typically goes in organics"⟩],
      top_labels⟩,
     false, none, none)
  -- 8. Recyclable materials with contamination → trash
  else if profile.material ∈ recyclable_materials ∧
      profile.contamination_risk ∈ ["medium", "high"] then
    (⟨"GRAY", "Landfill (Trash)", confidence_bucket profile.confidence, profile.confidence,
      rationale ++ [⟨RationaleType.RULE,
        "Contaminated recyclables typically go in trash"⟩],
      top_labels⟩,
     false, none, none)
  -- 9. Unknown material or form factor → clarification
  else if profile.material = "unknown" ∨ profile.form_factor = "unknown" then
    (⟨"UNKNOWN", "Not sure yet", confidence_bucket profile.confidence, profile.confidence,
      rationale ++ [⟨RationaleType.SYSTEM, "Falling back to clarification for safety"⟩],
      top_labels⟩,
     true,
     some ⟨"q_unknown_01", "I'm not confident. Is the item mostly food/plant-based?",
       "BOOLEAN", [(true, "Yes"), (false, "No")]⟩,
     none)
  -- 10. Default fallback
  else
    (⟨"UNKNOWN", "Not sure yet", confidence_bucket profile.confidence, profile.confidence,
      rationale ++ [⟨RationaleType.SYSTEM, "Unable to determine classification"⟩],
      top_labels⟩,
     true,
     some ⟨"q_unknown_01", "I'm not confident. Is the item mostly food/plant-based?",
       "BOOLEAN", [(true, "Yes"), (false, "No")]⟩,
     none)

/-- From `rules.py` (`decide_bin_from_labels`): the deprecated legacy
rule table over a best-first label list. -/
def decide_bin_from_labels (labels : List LabelScore)
    (jurisdiction_id : String := "CA_DEFAULT") :
    Result × Bool × Option Clarification × Option SpecialHandling :=
  let top := labels.take 5
  match labels with
  | [] =>
    (⟨"UNKNOWN", "Not sure yet", "LOW", 0,
      [⟨RationaleType.SYSTEM, "No labels returned"⟩], []⟩,
     true,
     some ⟨"q_try_again_01",
       "Could you retake the photo with one item and better lighting?", "BOOLEAN",
       [(true, "OK")]⟩,
     none)
  | best :: _ =>
    let rationale : List RationaleItem :=
      [⟨RationaleType.DETECTED_ITEM, "Top match: " ++ best.label⟩]
    -- Special handling first
    if best.label ∈ ["battery"] then
      (⟨"SPECIAL", "Special handling", confidence_bucket best.score, best.score,
        rationale ++ [⟨RationaleType.SAFETY, "Batteries require special disposal"⟩],
        top⟩,
       false, none,
       some ⟨"BATTERY",
         "Do not place in curbside bins. Take to a household hazardous waste drop-off or a retailer collection point.",
         []⟩)
    -- Clear organics
    else if best.label ∈ ["banana peel", "food"] then
      (⟨"GREEN", "Organics", confidence_bucket best.score, best.score,
        rationale ++ [⟨RationaleType.RULE, "Food and food scraps go in organics"⟩],
        top⟩,
       false, none, none)
    -- Clear recycling
    else if best.label ∈ ["plastic bottle", "aluminum can", "glass bottle"] then
      (⟨"BLUE", "Recycling", confidence_bucket best.score, best.score,
        rationale ++ [⟨RationaleType.RULE,
          "Rigid containers like bottles/cans typically go in recycling"⟩],
        top⟩,
       false, none, none)
    -- Likely trash: plastic film/bags
    else if best.label ∈ ["plastic bag"] then
      (⟨"GRAY", "Landfill (Trash)", confidence_bucket best.score, best.score,
        rationale ++ [⟨RationaleType.RULE,
          "Plastic film/bags are usually not accepted in curbside recycling"⟩],
        top⟩,
       false, none, none)
    -- Ambiguous: paper box
    else if best.label ∈ ["paper box"] then
      (⟨"UNKNOWN", "Not sure yet", confidence_bucket best.score, best.score,
        rationale ++ [⟨RationaleType.RULE,
          "Paper can be recycling if clean; organics/trash if food-soiled"⟩],
        top⟩,
       true,
       some ⟨"q_food_soiled_01", "Is it food-soiled (grease/food residue)?", "BOOLEAN",
         [(true, "Yes"), (false, "No")]⟩,
       none)
    -- Default conservative: unknown → clarification
    else
      (⟨"UNKNOWN", "Not sure yet", confidence_bucket best.score, best.score,
        rationale ++ [⟨RationaleType.SYSTEM, "Falling back to clarification for safety"⟩],
        top⟩,
       true,
       some ⟨"q_unknown_01", "I'm not confident. Is the item mostly food/plant-based?",
         "BOOLEAN", [(true, "Yes"), (false, "No")]⟩,
       none)

/-- From `rules.py` (`apply_clarification`): resolves a previously asked
clarification question plus a boolean answer into a final `Result`. -/
def apply_clarification (question_id : String) (answer : Bool)
    (prior_top_labels : List LabelScore) : Result :=
  let base_rationale : List RationaleItem :=
    [⟨RationaleType.USER_INPUT,
      "Answered " ++ question_id ++ " = " ++ pyBool answer⟩]
  if question_id = "q_food_soiled_01" then
    if answer = true then
      ⟨"GREEN", "Organics", "MEDIUM", 0.70,
       base_rationale ++ [⟨RationaleType.RULE,
         "Food-soiled paper goes in organics (where accepted)"⟩],
       prior_top_labels.take 5⟩
    else
      ⟨"BLUE", "Recycling", "MEDIUM", 0.70,
       base_rationale ++ [⟨RationaleType.RULE,
         "Clean paper/cardboard typically goes in recycling"⟩],
       prior_top_labels.take 5⟩
  else if question_id = "q_unknown_01" then
    ⟨if answer then "GREEN" else "GRAY",
     if answer then "Organics" else "Landfill (Trash)",
     "LOW", 0.55,
     base_rationale ++ [⟨RationaleType.RULE,
       "Heuristic decision based on your answer"⟩],
     prior_top_labels.take 5⟩
  else
    ⟨"UNKNOWN", "Not sure yet", "LOW", 0,
     base_rationale ++ [⟨RationaleType.SYSTEM, "Unknown clarification question"⟩],
     prior_top_labels.take 5⟩

/-- C4: the confidence bucketer is total with exact boundaries:
`HIGH` iff `score ≥ 0.85`, `MEDIUM` iff `0.65 ≤ score < 0.85`, `LOW` iff
`score < 0.65`; in particular `bucket 0.85 = HIGH`,
`bucket 0.849 = MEDIUM`, `bucket 0.65 = MEDIUM`, `bucket 0.649 = LOW`. -/
theorem C4_confidence_bucket_boundaries (score : ℚ) :
    (confidence_bucket score = "HIGH" ↔ 0.85 ≤ score) ∧
    (confidence_bucket score = "MEDIUM" ↔ 0.65 ≤ score ∧ score < 0.85) ∧
    (confidence_bucket score = "LOW" ↔ score < 0.65) ∧
    confidence_bucket 0.85 = "HIGH" ∧
    confidence_bucket 0.849 = "MEDIUM" ∧
    confidence_bucket 0.65 = "MEDIUM" ∧
    confidence_bucket 0.649 = "LOW" := by
  refine ⟨?_, ?_, ?_, by norm_num [confidence_bucket], by norm_num [confidence_bucket],
    by norm_num [confidence_bucket], by norm_num [confidence_bucket]⟩ <;>
  · unfold confidence_bucket
    split_ifs with h1 h2 <;> simp_all <;> intros <;> linarith

/-- C5: the clarification resolver's two known questions:
`q_food_soiled_01` resolves to `GREEN`/`BLUE` with `MEDIUM`/`0.70`, and
`q_unknown_01` resolves to `GREEN`/`GRAY` with `LOW`/`0.55`, for every
prior label list. -/
theorem C5_apply_clarification_known_questions (ls : List LabelScore) :
    ((apply_clarification "q_food_soiled_01" true ls).bin = "GREEN" ∧
     (apply_clarification "q_food_soiled_01" true ls).confidence = "MEDIUM" ∧
     (apply_clarification "q_food_soiled_01" true ls).confidence_score = 0.70) ∧
    ((apply_clarification "q_food_soiled_01" false ls).bin = "BLUE" ∧
     (apply_clarification "q_food_soiled_01" false ls).confidence = "MEDIUM" ∧
     (apply_clarification "q_food_soiled_01" false ls).confidence_score = 0.70) ∧
    ((apply_clarification "q_unknown_01" true ls).bin = "GREEN" ∧
     (apply_clarification "q_unknown_01" true ls).confidence = "LOW" ∧
     (apply_clarification "q_unknown_01" true ls).confidence_score = 0.55) ∧
    ((apply_clarification "q_unknown_01" false ls).bin = "GRAY" ∧
     (apply_clarification "q_unknown_01" false ls).confidence = "LOW" ∧
     (apply_clarification "q_unknown_01" false ls).confidence_score = 0.55) := by
  simp [apply_clarification]

/-- C6: any unknown question id resolves, without error, to `UNKNOWN`
with `LOW`/`0.0` and a `SYSTEM` rationale entry flagging the unknown
clarification question. -/
theorem C6_apply_clarification_unknown_question (q : String) (a : Bool)
    (ls : List LabelScore)
    (h1 : q ≠ "q_food_soiled_01") (h2 : q ≠ "q_unknown_01") :
    (apply_clarification q a ls).bin = "UNKNOWN" ∧
    (apply_clarification q a ls).confidence = "LOW" ∧
    (apply_clarification q a ls).confidence_score = 0 ∧
    (⟨RationaleType.SYSTEM, "Unknown clarification question"⟩ : RationaleItem) ∈
      (apply_clarification q a ls).rationale := by
  simp [apply_clarification, h1, h2]

/-- C6 witness: the unknown-question outcome at the concrete id
`"q_other_99"`. -/
theorem C6_witness :
    (apply_clarification "q_other_99" true []).bin = "UNKNOWN" ∧
    (apply_clarification "q_other_99" true []).confidence = "LOW" ∧
    (apply_clarification "q_other_99" true []).confidence_score = 0 ∧
    (⟨RationaleType.SYSTEM, "Unknown clarification question"⟩ : RationaleItem) ∈
      (apply_clarification "q_other_99" true []).rationale :=
  C6_apply_clarification_unknown_question "q_other_99" true []
    (by decide) (by decide)

end WasteApp

namespace WasteApp

/-- The `dict.get` over `special_category_map` as an if-chain. -/
lemma dictGet_special_category (c : String) :
    dictGet special_category_map c "UNKNOWN" =
      (if c = "battery" then "BATTERY"
       else if c = "e_waste" then "E_WASTE"
       else if c = "hhw" then "HHW"
       else if c = "sharps" then "SHARPS"
       else "UNKNOWN") := by
  by_cases h1 : c = "battery"
  · simp [dictGet, special_category_map, List.lookup, h1]
  by_cases h2 : c = "e_waste"
  · simp [dictGet, special_category_map, List.lookup, h1, h2]
  by_cases h3 : c = "hhw"
  · simp [dictGet, special_category_map, List.lookup, h1, h2, h3]
  by_cases h4 : c = "sharps"
  · simp [dictGet, special_category_map, List.lookup, h1, h2, h3, h4]
  have e1 : (c == "battery") = false := beq_eq_false_iff_ne.mpr h1
  have e2 : (c == "e_waste") = false := beq_eq_false_iff_ne.mpr h2
  have e3 : (c == "hhw") = false := beq_eq_false_iff_ne.mpr h3
  have e4 : (c == "sharps") = false := beq_eq_false_iff_ne.mpr h4
  simp [dictGet, special_category_map, List.lookup, e1, e2, e3, e4, h1, h2, h3, h4]

/-- The `dict.get` over `instructions_map` is the generic fallback on
unmapped codes. -/
lemma dictGet_instructions_unmapped (c : String)
    (h : c ∉ ["battery", "e_waste", "hhw", "sharps"]) :
    dictGet instructions_map c "Requires special disposal. Check local guidelines." =
      "Requires special disposal. Check local guidelines." := by
  simp only [List.mem_cons, List.not_mem_nil, or_false, not_or] at h
  obtain ⟨h1, h2, h3, h4⟩ := h
  have e1 : (c == "battery") = false := beq_eq_false_iff_ne.mpr h1
  have e2 : (c == "e_waste") = false := beq_eq_false_iff_ne.mpr h2
  have e3 : (c == "hhw") = false := beq_eq_false_iff_ne.mpr h3
  have e4 : (c == "sharps") = false := beq_eq_false_iff_ne.mpr h4
  simp [dictGet, instructions_map, List.lookup, e1, e2, e3, e4]

/-- C1: a profile with non-`none` special handling always yields bin
`SPECIAL` with no clarification and a populated `SpecialHandling` whose
category follows the battery/e_waste/hhw/sharps map, with unmapped codes
falling back to `UNKNOWN` and the generic instruction; `needs_clarification`
is false on this branch. -/
theorem C1_special_handling_first (p : ItemProfile) (j : String)
    (h : p.special_handling ≠ "none") :
    (decide_bin_from_profile p j).1.bin = "SPECIAL" ∧
    (decide_bin_from_profile p j).2.1 = false ∧
    (decide_bin_from_profile p j).2.2.1 = none ∧
    ∃ s : SpecialHandling,
      (decide_bin_from_profile p j).2.2.2 = some s ∧
      s.category =
        (if p.special_handling = "battery" then "BATTERY"
         else if p.special_handling = "e_waste" then "E_WASTE"
         else if p.special_handling = "hhw" then "HHW"
         else if p.special_handling = "sharps" then "SHARPS"
         else "UNKNOWN") ∧
      (p.special_handling ∉ ["battery", "e_waste", "hhw", "sharps"] →
        s.category = "UNKNOWN" ∧
        s.instructions = "Requires special disposal. Check local guidelines.") := by
  simp only [decide_bin_from_profile, if_pos h]
  refine ⟨trivial, trivial, trivial, _, rfl, dictGet_special_category _, fun hm => ?_⟩
  have hm' := hm
  simp only [List.mem_cons, List.not_mem_nil, or_false, not_or] at hm'
  obtain ⟨h1, h2, h3, h4⟩ := hm'
  constructor
  · show dictGet special_category_map p.special_handling "UNKNOWN" = "UNKNOWN"
    rw [dictGet_special_category]
    simp [h1, h2, h3, h4]
  · exact dictGet_instructions_unmapped _ hm

/-- C1 witness: the special-handling branch at a concrete battery
profile. -/
theorem C1_witness :
    (decide_bin_from_profile ⟨"unknown", "unknown", "low", "battery", 0.95, []⟩ "CA_DEFAULT").1.bin = "SPECIAL" ∧
    (decide_bin_from_profile ⟨"unknown", "unknown", "low", "battery", 0.95, []⟩ "CA_DEFAULT").2.1 = false ∧
    (decide_bin_from_profile ⟨"unknown", "unknown", "low", "battery", 0.95, []⟩ "CA_DEFAULT").2.2.1 = none ∧
    ∃ s : SpecialHandling,
      (decide_bin_from_profile ⟨"unknown", "unknown", "low", "battery", 0.95, []⟩ "CA_DEFAULT").2.2.2 = some s ∧
      s.category =
        (if (ItemProfile.special_handling ⟨"unknown", "unknown", "low", "battery", 0.95, []⟩) = "battery" then "BATTERY"
         else if (ItemProfile.special_handling ⟨"unknown", "unknown", "low", "battery", 0.95, []⟩) = "e_waste" then "E_WASTE"
         else if (ItemProfile.special_handling ⟨"unknown", "unknown", "low", "battery", 0.95, []⟩) = "hhw" then "HHW"
         else if (ItemProfile.special_handling ⟨"unknown", "unknown", "low", "battery", 0.95, []⟩) = "sharps" then "SHARPS"
         else "UNKNOWN") ∧
      ((ItemProfile.special_handling ⟨"unknown", "unknown", "low", "battery", 0.95, []⟩) ∉ ["battery", "e_waste", "hhw", "sharps"] →
        s.category = "UNKNOWN" ∧
        s.instructions = "Requires special disposal. Check local guidelines.") :=
  C1_special_handling_first ⟨"unknown", "unknown", "low", "battery", 0.95, []⟩
    "CA_DEFAULT" (by decide)

/-- A film-plastic profile whose `special_handling` is `"battery"`. -/
def film_plastic_battery : ItemProfile :=
  ⟨"film_plastic", "bag_film", "low", "battery", 0.9, []⟩

/-- C2 counterexample: a `film_plastic` profile does NOT always get bin
`GRAY` — with `special_handling = "battery"` the special-handling rule
fires first and the bin is `SPECIAL`. -/
theorem C2_counterexample :
    film_plastic_battery.material = "film_plastic" ∧
    (decide_bin_from_profile film_plastic_battery "CA_DEFAULT").1.bin = "SPECIAL" ∧
    (decide_bin_from_profile film_plastic_battery "CA_DEFAULT").1.bin ≠ "GRAY" := by
  refine ⟨rfl, ?_, ?_⟩ <;> simp [decide_bin_from_profile, film_plastic_battery]

/-- C2 (amended): a `film_plastic` profile with `special_handling = "none"`
gets bin `GRAY` regardless of every other field. -/
theorem C2_film_plastic_gray (p : ItemProfile) (j : String)
    (hm : p.material = "film_plastic") (hs : p.special_handling = "none") :
    (decide_bin_from_profile p j).1.bin = "GRAY" := by
  simp [decide_bin_from_profile, hm, hs, recyclable_materials]

/-- C2 witness: the amended film-plastic rule at a concrete profile with
high contamination. -/
theorem C2_witness :
    (decide_bin_from_profile ⟨"film_plastic", "bag_film", "high", "none", 0.3, []⟩ "CA_DEFAULT").1.bin = "GRAY" :=
  C2_film_plastic_gray ⟨"film_plastic", "bag_film", "high", "none", 0.3, []⟩
    "CA_DEFAULT" rfl rfl

/-- C3: contaminated (`medium` or `high`) paper/cardboard with no special
handling goes to `GREEN`, never `GRAY`: rules 6/7 intercept before the
contaminated-recyclables rule 8. -/
theorem C3_paper_contamination_green (p : ItemProfile) (j : String)
    (hs : p.special_handling = "none") (hm : p.material = "paper_cardboard")
    (hc : p.contamination_risk = "medium" ∨ p.contamination_risk = "high") :
    (decide_bin_from_profile p j).1.bin = "GREEN" ∧
    (decide_bin_from_profile p j).1.bin ≠ "GRAY" := by
  rcases hc with hc | hc <;>
    simp [decide_bin_from_profile, hs, hm, hc, recyclable_materials]

/-- C3 witness: high-contamination paper at a concrete profile. -/
theorem C3_witness :
    (decide_bin_from_profile ⟨"paper_cardboard", "box", "high", "none", 0.7, []⟩ "CA_DEFAULT").1.bin = "GREEN" ∧
    (decide_bin_from_profile ⟨"paper_cardboard", "box", "high", "none", 0.7, []⟩ "CA_DEFAULT").1.bin ≠ "GRAY" :=
  C3_paper_contamination_green ⟨"paper_cardboard", "box", "high", "none", 0.7, []⟩
    "CA_DEFAULT" rfl rfl (Or.inr rfl)

/-- C8: a clean (`low` contamination) recyclable material with no special
handling goes to `BLUE` with no clarification needed; in particular the
rigid-plastic bottle scenario at confidence `0.9` yields `BLUE`/`HIGH`. -/
theorem C8_clean_recyclables_blue (p : ItemProfile) (j : String)
    (hs : p.special_handling = "none")
    (hm : p.material ∈ ["paper_cardboard", "metal", "glass", "rigid_plastic"])
    (hc : p.contamination_risk = "low") :
    ((decide_bin_from_profile p j).1.bin = "BLUE" ∧
     (decide_bin_from_profile p j).2.1 = false) ∧
    ((decide_bin_from_profile ⟨"rigid_plastic", "bottle", "low", "none", 0.9, []⟩ "CA_DEFAULT").1.bin = "BLUE" ∧
     (decide_bin_from_profile ⟨"rigid_plastic", "bottle", "low", "none", 0.9, []⟩ "CA_DEFAULT").1.confidence = "HIGH" ∧
     (decide_bin_from_profile ⟨"rigid_plastic", "bottle", "low", "none", 0.9, []⟩ "CA_DEFAULT").2.1 = false) := by
  constructor
  · simp only [List.mem_cons, List.not_mem_nil, or_false] at hm
    rcases hm with hm | hm | hm | hm <;>
      simp [decide_bin_from_profile, hs, hm, hc, recyclable_materials]
  · have hb : confidence_bucket 0.9 = "HIGH" := by norm_num [confidence_bucket]
    refine ⟨?_, ?_, ?_⟩ <;>
      simp [decide_bin_from_profile, recyclable_materials, hb]

/-- C8 witness: the clean-recyclable rule at the concrete scenario
profile. -/
theorem C8_witness :
    (((decide_bin_from_profile ⟨"rigid_plastic", "bottle", "low", "none", 0.9, []⟩ "CA_DEFAULT").1.bin = "BLUE" ∧
      (decide_bin_from_profile ⟨"rigid_plastic", "bottle", "low", "none", 0.9, []⟩ "CA_DEFAULT").2.1 = false) ∧
     ((decide_bin_from_profile ⟨"rigid_plastic", "bottle", "low", "none", 0.9, []⟩ "CA_DEFAULT").1.bin = "BLUE" ∧
      (decide_bin_from_profile ⟨"rigid_plastic", "bottle", "low", "none", 0.9, []⟩ "CA_DEFAULT").1.confidence = "HIGH" ∧
      (decide_bin_from_profile ⟨"rigid_plastic", "bottle", "low", "none", 0.9, []⟩ "CA_DEFAULT").2.1 = false)) :=
  C8_clean_recyclables_blue ⟨"rigid_plastic", "bottle", "low", "none", 0.9, []⟩
    "CA_DEFAULT" rfl (by simp) rfl

/-- Every outcome of the profile engine has one of two shapes: a
determinate decision (no clarification request, non-`UNKNOWN` bin) or a
clarification request (an `UNKNOWN` bin, a populated clarification, no
special handling). -/
lemma decide_profile_shape (p : ItemProfile) (j : String) :
    ((decide_bin_from_profile p j).2.1 = false ∧
     (decide_bin_from_profile p j).2.2.1 = none ∧
     (decide_bin_from_profile p j).1.bin ≠ "UNKNOWN") ∨
    ((decide_bin_from_profile p j).2.1 = true ∧
     (decide_bin_from_profile p j).2.2.2 = none ∧
     (decide_bin_from_profile p j).1.bin = "UNKNOWN" ∧
     ∃ c, (decide_bin_from_profile p j).2.2.1 = some c) := by
  by_cases hs : p.special_handling = "none"
  case neg => simp [decide_bin_from_profile, hs]
  by_cases hm1 : p.material = "organic"
  case pos => simp [decide_bin_from_profile, hs, hm1]
  by_cases hm2 : p.material = "film_plastic"
  case pos => simp [decide_bin_from_profile, hs, hm1, hm2, recyclable_materials]
  by_cases hm3 : p.material = "paper_cardboard"
  case pos =>
    by_cases hc1 : p.contamination_risk = "low"
    case pos => simp [decide_bin_from_profile, hs, hm1, hm2, hm3, hc1, recyclable_materials]
    by_cases hc2 : p.contamination_risk = "unknown"
    case pos => simp [decide_bin_from_profile, hs, hm1, hm2, hm3, hc1, hc2, recyclable_materials]
    by_cases hc3 : p.contamination_risk = "high"
    case pos => simp [decide_bin_from_profile, hs, hm1, hm2, hm3, hc1, hc2, hc3, recyclable_materials]
    by_cases hc4 : p.contamination_risk = "medium"
    case pos => simp [decide_bin_from_profile, hs, hm1, hm2, hm3, hc1, hc2, hc3, hc4, recyclable_materials]
    by_cases hf : p.form_factor = "unknown"
    all_goals
      simp [decide_bin_from_profile, hs, hm1, hm2, hm3, hc1, hc2, hc3, hc4, hf, recyclable_materials]
  by_cases hm4 : p.material = "metal"
  case pos =>
    by_cases hc1 : p.contamination_risk = "low"
    case pos => simp [decide_bin_from_profile, hs, hm1, hm2, hm3, hm4, hc1, recyclable_materials]
    by_cases hc2 : p.contamination_risk = "medium"
    case pos => simp [decide_bin_from_profile, hs, hm1, hm2, hm3, hm4, hc1, hc2, recyclable_materials]
    by_cases hc3 : p.contamination_risk = "high"
    case pos => simp [decide_bin_from_profile, hs, hm1, hm2, hm3, hm4, hc1, hc2, hc3, recyclable_materials]
    by_cases hf : p.form_factor = "unknown"
    all_goals
      simp [decide_bin_from_profile, hs, hm1, hm2, hm3, hm4, hc1, hc2, hc3, hf, recyclable_materials]
  by_cases hm5 : p.material = "glass"
  case pos =>
    by_cases hc1 : p.contamination_risk = "low"
    case pos => simp [decide_bin_from_profile, hs, hm1, hm2, hm3, hm4, hm5, hc1, recyclable_materials]
    by_cases hc2 : p.contamination_risk = "medium"
    case pos => simp [decide_bin_from_profile, hs, hm1, hm2, hm3, hm4, hm5, hc1, hc2, recyclable_materials]
    by_cases hc3 : p.contamination_risk = "high"
    case pos => simp [decide_bin_from_profile, hs, hm1, hm2, hm3, hm4, hm5, hc1, hc2, hc3, recyclable_materials]
    by_cases hf : p.form_factor = "unknown"
    all_goals
      simp [decide_bin_from_profile, hs, hm1, hm2, hm3, hm4, hm5, hc1, hc2, hc3, hf, recyclable_materials]
  by_cases hm6 : p.material = "rigid_plastic"
  case pos =>
    by_cases hc1 : p.contamination_risk = "low"
    case pos => simp [decide_bin_from_profile, hs, hm1, hm2, hm3, hm4, hm5, hm6, hc1, recyclable_materials]
    by_cases hc2 : p.contamination_risk = "medium"
    case pos => simp [decide_bin_from_profile, hs, hm1, hm2, hm3, hm4, hm5, hm6, hc1, hc2, recyclable_materials]
    by_cases hc3 : p.contamination_risk = "high"
    case pos => simp [decide_bin_from_profile, hs, hm1, hm2, hm3, hm4, hm5, hm6, hc1, hc2, hc3, recyclable_materials]
    by_cases hf : p.form_factor = "unknown"
    all_goals
      simp [decide_bin_from_profile, hs, hm1, hm2, hm3, hm4, hm5, hm6, hc1, hc2, hc3, hf, recyclable_materials]
  by_cases hm7 : p.material = "unknown"
  case pos => simp [decide_bin_from_profile, hs, hm1, hm2, hm3, hm4, hm5, hm6, hm7, recyclable_materials]
  by_cases hf : p.form_factor = "unknown"
  all_goals
    simp [decide_bin_from_profile, hs, hm1, hm2, hm3, hm4, hm5, hm6, hm7, hf, recyclable_materials]

/-- Every outcome of the legacy label engine has one of the same two
shapes as the profile engine. -/
lemma decide_labels_shape (labels : List LabelScore) (j : String) :
    ((decide_bin_from_labels labels j).2.1 = false ∧
     (decide_bin_from_labels labels j).2.2.1 = none ∧
     (decide_bin_from_labels labels j).1.bin ≠ "UNKNOWN") ∨
    ((decide_bin_from_labels labels j).2.1 = true ∧
     (decide_bin_from_labels labels j).2.2.2 = none ∧
     (decide_bin_from_labels labels j).1.bin = "UNKNOWN" ∧
     ∃ c, (decide_bin_from_labels labels j).2.2.1 = some c) := by
  match labels with
  | [] => simp [decide_bin_from_labels]
  | best :: rest =>
    by_cases h1 : best.label = "battery"
    case pos => simp [decide_bin_from_labels, h1]
    by_cases h2 : best.label = "banana peel"
    case pos => simp [decide_bin_from_labels, h1, h2]
    by_cases h3 : best.label = "food"
    case pos => simp [decide_bin_from_labels, h1, h2, h3]
    by_cases h4 : best.label = "plastic bottle"
    case pos => simp [decide_bin_from_labels, h1, h2, h3, h4]
    by_cases h5 : best.label = "aluminum can"
    case pos => simp [decide_bin_from_labels, h1, h2, h3, h4, h5]
    by_cases h6 : best.label = "glass bottle"
    case pos => simp [decide_bin_from_labels, h1, h2, h3, h4, h5, h6]
    by_cases h7 : best.label = "plastic bag"
    case pos => simp [decide_bin_from_labels, h1, h2, h3, h4, h5, h6, h7]
    by_cases h8 : best.label = "paper box"
    all_goals simp [decide_bin_from_labels, h1, h2, h3, h4, h5, h6, h7, h8]





/-- C9: the legacy label engine decides solely from the first label:
empty input gives `UNKNOWN` plus the retake-photo clarification;
`battery` gives `SPECIAL` with `BATTERY` handling; `banana peel`/`food`
give `GREEN`; `plastic bottle`/`aluminum can`/`glass bottle` give `BLUE`;
`plastic bag` gives `GRAY`; `paper box` gives `UNKNOWN` plus
`q_food_soiled_01`; anything else gives `UNKNOWN` plus `q_unknown_01` —
independently of the remaining labels. -/
theorem C9_label_engine_priority (j : String) (best : LabelScore)
    (rest : List LabelScore) :
    ((decide_bin_from_labels [] j).1.bin = "UNKNOWN" ∧
     ∃ c : Clarification, (decide_bin_from_labels [] j).2.2.1 = some c ∧
       c.question_id = "q_try_again_01") ∧
    (best.label = "battery" →
      (decide_bin_from_labels (best :: rest) j).1.bin = "SPECIAL" ∧
      ∃ s : SpecialHandling,
        (decide_bin_from_labels (best :: rest) j).2.2.2 = some s ∧
        s.category = "BATTERY") ∧
    (best.label = "banana peel" ∨ best.label = "food" →
      (decide_bin_from_labels (best :: rest) j).1.bin = "GREEN") ∧
    (best.label = "plastic bottle" ∨ best.label = "aluminum can" ∨
        best.label = "glass bottle" →
      (decide_bin_from_labels (best :: rest) j).1.bin = "BLUE") ∧
    (best.label = "plastic bag" →
      (decide_bin_from_labels (best :: rest) j).1.bin = "GRAY") ∧
    (best.label = "paper box" →
      (decide_bin_from_labels (best :: rest) j).1.bin = "UNKNOWN" ∧
      ∃ c : Clarification, (decide_bin_from_labels (best :: rest) j).2.2.1 = some c ∧
        c.question_id = "q_food_soiled_01") ∧
    (best.label ∉ ["battery", "banana peel", "food", "plastic bottle",
        "aluminum can", "glass bottle", "plastic bag", "paper box"] →
      (decide_bin_from_labels (best :: rest) j).1.bin = "UNKNOWN" ∧
      ∃ c : Clarification, (decide_bin_from_labels (best :: rest) j).2.2.1 = some c ∧
        c.question_id = "q_unknown_01") := by
  refine ⟨?_, fun h => ?_, fun h => ?_, fun h => ?_, fun h => ?_,
    fun h => ?_, fun h => ?_⟩
  · simp [decide_bin_from_labels]
  · simp [decide_bin_from_labels, h]
  · rcases h with h | h <;> simp [decide_bin_from_labels, h]
  · rcases h with h | h | h <;> simp [decide_bin_from_labels, h]
  · simp [decide_bin_from_labels, h]
  · simp [decide_bin_from_labels, h]
  · simp only [List.mem_cons, List.not_mem_nil, or_false, not_or] at h
    obtain ⟨h1, h2, h3, h4, h5, h6, h7, h8⟩ := h
    simp [decide_bin_from_labels, h1, h2, h3, h4, h5, h6, h7, h8]

/-- C9 witness: the battery case at a concrete single-label list. -/
theorem C9_witness :
    (decide_bin_from_labels [(⟨"battery", 0.9⟩ : LabelScore)] "CA_DEFAULT").1.bin = "SPECIAL" ∧
    ∃ s : SpecialHandling,
      (decide_bin_from_labels [(⟨"battery", 0.9⟩ : LabelScore)] "CA_DEFAULT").2.2.2 = some s ∧
      s.category = "BATTERY" :=
  (C9_label_engine_priority "CA_DEFAULT" ⟨"battery", 0.9⟩ []).2.1 rfl

/-- C7: in both engines the clarification and the special handling are
never simultaneously populated, and a populated clarification implies
`needs_clarification = true`. -/
theorem C7_clarification_special_exclusive (p : ItemProfile)
    (labels : List LabelScore) (j j2 : String) :
    (¬((decide_bin_from_profile p j).2.2.1 ≠ none ∧
       (decide_bin_from_profile p j).2.2.2 ≠ none)) ∧
    ((decide_bin_from_profile p j).2.2.1 ≠ none →
      (decide_bin_from_profile p j).2.1 = true) ∧
    (¬((decide_bin_from_labels labels j2).2.2.1 ≠ none ∧
       (decide_bin_from_labels labels j2).2.2.2 ≠ none)) ∧
    ((decide_bin_from_labels labels j2).2.2.1 ≠ none →
      (decide_bin_from_labels labels j2).2.1 = true) := by
  rcases decide_profile_shape p j with ⟨_, hc, _⟩ | ⟨hn, hsp, _, _, _⟩ <;>
    rcases decide_labels_shape labels j2 with ⟨_, hc2, _⟩ | ⟨hn2, hsp2, _, _, _⟩ <;>
    refine ⟨?_, ?_, ?_, ?_⟩ <;> simp_all

/-- C10: in both engines `needs_clarification` is true exactly when the
bin is `UNKNOWN`; every `UNKNOWN` outcome carries a clarification, and
every determinate outcome carries `needs_clarification = false` and no
clarification. -/
theorem C10_unknown_iff_clarification (p : ItemProfile)
    (labels : List LabelScore) (j j2 : String) :
    ((decide_bin_from_profile p j).2.1 = true ↔
      (decide_bin_from_profile p j).1.bin = "UNKNOWN") ∧
    ((decide_bin_from_profile p j).1.bin = "UNKNOWN" →
      (decide_bin_from_profile p j).2.2.1 ≠ none) ∧
    ((decide_bin_from_profile p j).1.bin ≠ "UNKNOWN" →
      (decide_bin_from_profile p j).2.1 = false ∧
      (decide_bin_from_profile p j).2.2.1 = none) ∧
    ((decide_bin_from_labels labels j2).2.1 = true ↔
      (decide_bin_from_labels labels j2).1.bin = "UNKNOWN") ∧
    ((decide_bin_from_labels labels j2).1.bin = "UNKNOWN" →
      (decide_bin_from_labels labels j2).2.2.1 ≠ none) ∧
    ((decide_bin_from_labels labels j2).1.bin ≠ "UNKNOWN" →
      (decide_bin_from_labels labels j2).2.1 = false ∧
      (decide_bin_from_labels labels j2).2.2.1 = none) := by
  rcases decide_profile_shape p j with ⟨hn, hc, hb⟩ | ⟨hn, hsp, hb, c, hc⟩ <;>
    rcases decide_labels_shape labels j2 with ⟨hn2, hc2, hb2⟩ | ⟨hn2, hsp2, hb2, c2, hc2⟩ <;>
    refine ⟨?_, ?_, ?_, ?_, ?_, ?_⟩ <;> simp_all

/-- C7 witness: the exclusivity invariant at a concrete organic profile
and a concrete food label list. -/
theorem C7_witness :
    (¬((decide_bin_from_profile ⟨"organic", "unknown", "low", "none", 0.8, []⟩ "CA_DEFAULT").2.2.1 ≠ none ∧
       (decide_bin_from_profile ⟨"organic", "unknown", "low", "none", 0.8, []⟩ "CA_DEFAULT").2.2.2 ≠ none)) ∧
    ((decide_bin_from_profile ⟨"organic", "unknown", "low", "none", 0.8, []⟩ "CA_DEFAULT").2.2.1 ≠ none →
      (decide_bin_from_profile ⟨"organic", "unknown", "low", "none", 0.8, []⟩ "CA_DEFAULT").2.1 = true) ∧
    (¬((decide_bin_from_labels [(⟨"food", 0.8⟩ : LabelScore)] "CA_DEFAULT").2.2.1 ≠ none ∧
       (decide_bin_from_labels [(⟨"food", 0.8⟩ : LabelScore)] "CA_DEFAULT").2.2.2 ≠ none)) ∧
    ((decide_bin_from_labels [(⟨"food", 0.8⟩ : LabelScore)] "CA_DEFAULT").2.2.1 ≠ none →
      (decide_bin_from_labels [(⟨"food", 0.8⟩ : LabelScore)] "CA_DEFAULT").2.1 = true) :=
  C7_clarification_special_exclusive ⟨"organic", "unknown", "low", "none", 0.8, []⟩
    [(⟨"food", 0.8⟩ : LabelScore)] "CA_DEFAULT" "CA_DEFAULT"

/-- C10 witness: the UNKNOWN-iff-clarification invariant at a concrete
unknown-material profile and a concrete unmatched label list. -/
theorem C10_witness :
    ((decide_bin_from_profile ⟨"unknown", "unknown", "unknown", "none", 0.2, []⟩ "CA_DEFAULT").2.1 = true ↔
      (decide_bin_from_profile ⟨"unknown", "unknown", "unknown", "none", 0.2, []⟩ "CA_DEFAULT").1.bin = "UNKNOWN") ∧
    ((decide_bin_from_profile ⟨"unknown", "unknown", "unknown", "none", 0.2, []⟩ "CA_DEFAULT").1.bin = "UNKNOWN" →
      (decide_bin_from_profile ⟨"unknown", "unknown", "unknown", "none", 0.2, []⟩ "CA_DEFAULT").2.2.1 ≠ none) ∧
    ((decide_bin_from_profile ⟨"unknown", "unknown", "unknown", "none", 0.2, []⟩ "CA_DEFAULT").1.bin ≠ "UNKNOWN" →
      (decide_bin_from_profile ⟨"unknown", "unknown", "unknown", "none", 0.2, []⟩ "CA_DEFAULT").2.1 = false ∧
      (decide_bin_from_profile ⟨"unknown", "unknown", "unknown", "none", 0.2, []⟩ "CA_DEFAULT").2.2.1 = none) ∧
    ((decide_bin_from_labels [(⟨"mystery item", 0.4⟩ : LabelScore)] "CA_DEFAULT").2.1 = true ↔
      (decide_bin_from_labels [(⟨"mystery item", 0.4⟩ : LabelScore)] "CA_DEFAULT").1.bin = "UNKNOWN") ∧
    ((decide_bin_from_labels [(⟨"mystery item", 0.4⟩ : LabelScore)] "CA_DEFAULT").1.bin = "UNKNOWN" →
      (decide_bin_from_labels [(⟨"mystery item", 0.4⟩ : LabelScore)] "CA_DEFAULT").2.2.1 ≠ none) ∧
    ((decide_bin_from_labels [(⟨"mystery item", 0.4⟩ : LabelScore)] "CA_DEFAULT").1.bin ≠ "UNKNOWN" →
      (decide_bin_from_labels [(⟨"mystery item", 0.4⟩ : LabelScore)] "CA_DEFAULT").2.1 = false ∧
      (decide_bin_from_labels [(⟨"mystery item", 0.4⟩ : LabelScore)] "CA_DEFAULT").2.2.1 = none) :=
  C10_unknown_iff_clarification ⟨"unknown", "unknown", "unknown", "none", 0.2, []⟩
    [(⟨"mystery item", 0.4⟩ : LabelScore)] "CA_DEFAULT" "CA_DEFAULT"

end WasteApp
